import Mathlib

/-!
Verification development for the MediaSoup voice-room repository.

Shallow embedding of the signaling server (`backend/index.js`, provided as
`src/unnamed/part_000`) and of the client session orchestrator
(`src/frontend/src/lib/mediasoupClient.ts`).

The server keeps JavaScript `Map`s (`rooms`, `peers`, `transports`,
`producers`, `consumers`, `users`).  A JS `Map` is modelled as an
association list preserving insertion order: `set` replaces an existing
entry in place or appends a fresh one at the end, `delete` removes the
entry, and iteration follows the list order (the `consume` handler relies
on iteration order to pick the peer's first transport).

Mutable mediasoup objects (transports, producers, consumers) are stored by
id in the global registries, and the per-peer maps hold their ids, so that
each object has a single authoritative copy, mirroring the shared object
references of the JS code.

Behaviour of the external mediasoup engine that the handlers invoke
(`transport.connect/produce/consume`, `consumer.resume`, cascading close,
`router.canConsume`) is modelled from mediasoup's documented semantics:
operations on closed objects fail, closing a transport closes its
producers and consumers, closing a producer closes the consumers that
consume it, and the opus-only router can consume exactly when the receiver
capabilities contain a matching opus audio codec.
-/

namespace VoiceRoom

/-! ### Association lists modelling JavaScript `Map` -/

variable {κ : Type} {α : Type}

/-- First value stored under key `k` (JS `map.get`). -/
def lookupA [DecidableEq κ] (k : κ) : List (κ × α) → Option α
  | [] => none
  | (k', v) :: rest => if k' = k then some v else lookupA k rest

/-- JS `map.set`: replace in place if the key is present, else append. -/
def upsertA [DecidableEq κ] (k : κ) (v : α) : List (κ × α) → List (κ × α)
  | [] => [(k, v)]
  | (k', v') :: rest => if k' = k then (k, v) :: rest else (k', v') :: upsertA k v rest

/-- JS `map.delete`.  Keys are unique in every reachable state, so removing
all occurrences agrees with removing the entry. -/
def eraseA [DecidableEq κ] (k : κ) (l : List (κ × α)) : List (κ × α) :=
  l.filter (fun p => decide (p.1 ≠ k))

/-- Update every stored value in place (used for the close cascades, which
mutate objects without touching map membership). -/
def mapValsA (f : κ → α → α) (l : List (κ × α)) : List (κ × α) :=
  l.map (fun p => (p.1, f p.1 p.2))

/-! ### Data model (from the stores at the top of the server file) -/

/-- One entry of `mediasoupSettings.router.mediaCodecs`. -/
structure Codec where
  kind : String
  mimeType : String
  clockRate : Nat
  channels : Nat
deriving DecidableEq, Repr

/-- `mediasoupSettings.router.mediaCodecs`: the router supports opus only. -/
def mediaCodecs : List Codec := [⟨"audio", "audio/opus", 48000, 2⟩]

structure Transport where
  id : Nat
  peerId : String
  connected : Bool
  closed : Bool
deriving DecidableEq, Repr

structure Producer where
  id : Nat
  peerId : String
  transportId : Nat
  kind : String
  closed : Bool
deriving DecidableEq, Repr

inductive ConsumerState
  | paused
  | active
  | closed
deriving DecidableEq, Repr

structure Consumer where
  id : Nat
  peerId : String
  transportId : Nat
  producerId : Nat
  state : ConsumerState
deriving DecidableEq, Repr

structure User where
  id : String
  name : String
  isSpeaking : Bool
deriving DecidableEq, Repr

/-- A room: its router (capability provider) identity, the keys of its
`peers` map in insertion order, and the producer ids of its `recordings`
map. -/
structure Room where
  id : String
  routerId : Nat
  members : List String
  recordings : List Nat
deriving DecidableEq, Repr

/-- A peer object: the keys of its `transports`/`producers`/`consumers`
maps in insertion order, plus the closure-captured `roomId`. -/
structure Peer where
  id : String
  roomId : String
  transportIds : List Nat
  producerIds : List Nat
  consumerIds : List Nat
deriving DecidableEq, Repr

/-- The server's global stores.  `nextId` is the id allocator standing in
for mediasoup's generated uuids; `routersCreated` counts router (capability
provider) instantiations performed by `createRoom`. -/
structure ServerState where
  rooms : List (String × Room)
  peers : List (String × Peer)
  transports : List (Nat × Transport)
  producers : List (Nat × Producer)
  consumers : List (Nat × Consumer)
  users : List (String × User)
  nextId : Nat
  routersCreated : Nat
deriving DecidableEq, Repr

def initialState : ServerState := ⟨[], [], [], [], [], [], 0, 0⟩

/-- Server-push events (`socket.to(roomId).emit` / `socket.emit`). -/
inductive Event
  | newProducer (peerId : String) (producerId : Nat) (kind : String)
  | peerDisconnected (peerId : String)
  | userLeft (peerId : String)
  | userJoined (userId : String)
  | usersList (us : List User)
  | userSpeaking (peerId : String) (speaking : Bool)
deriving DecidableEq, Repr

/-- One invocation of a request's `callback`: a result payload or an
`{error}` payload. -/
inductive Resp
  | okCaps (caps : List Codec)
  | okTransport (transportId : Nat)
  | okSuccess
  | okProduced (producerId : Nat)
  | okConsumed (consumerId producerId : Nat) (kind : String)
  | err (msg : String)
deriving DecidableEq, Repr

/-- Handler output: new state, emitted events, callback invocations. -/
abbrev HandlerOut := ServerState × List Event × List Resp

/-! ### Connection handler (`io.on('connection')`), split at the `await`

`rooms.get(roomId)` is checked synchronously; when the room is missing,
`createRoom` suspends at `await worker.createRouter(...)` and only then
stores the room and joins the peer.  `checkBlock` is the synchronous code
up to and including that check (plus, when the room already exists, the
rest of the handler, which runs without further suspension);
`createBlock` is the continuation after the `await`. -/

/-- `room.peers.set(peerId, peer)` on the members key list. -/
def addMember (m : List String) (p : String) : List String :=
  if p ∈ m then m else m ++ [p]

def checkBlock (s : ServerState) (roomId peerId : String) : ServerState × Bool :=
  match lookupA roomId s.rooms with
  | some room =>
      ({ s with
          rooms := upsertA roomId { room with members := addMember room.members peerId } s.rooms,
          peers := upsertA peerId ⟨peerId, roomId, [], [], []⟩ s.peers }, true)
  | none => (s, false)

def createBlock (s : ServerState) (roomId peerId : String) : ServerState :=
  { s with
      rooms := upsertA roomId ⟨roomId, s.nextId, [peerId], []⟩ s.rooms,
      peers := upsertA peerId ⟨peerId, roomId, [], [], []⟩ s.peers,
      nextId := s.nextId + 1,
      routersCreated := s.routersCreated + 1 }

/-- The whole connection handler, as it behaves when the connection is
processed without interleaving. -/
def handleConnect (s : ServerState) (roomId peerId : String) : ServerState :=
  let out := checkBlock s roomId peerId
  if out.2 then out.1 else createBlock out.1 roomId peerId

/-! ### Request handlers -/

/-- `socket.on('getRouterRtpCapabilities')`: replies with
`room.router.rtpCapabilities`, modelled by the configured codec list. -/
def handleGetCaps (s : ServerState) (peerId : String) : HandlerOut :=
  match lookupA peerId s.peers with
  | some _ => (s, [], [.okCaps mediaCodecs])
  | none => (s, [], [.err "Room or router not initialized"])

/-- `socket.on('createWebRtcTransport')`.  The `sender` flag is received
but never stored: the server records no transport direction. -/
def handleCreateTransport (s : ServerState) (peerId : String) (sender : Bool) : HandlerOut :=
  match lookupA peerId s.peers with
  | none => (s, [], [.err "peer not connected"])
  | some peer =>
      let tid := s.nextId
      let _ := sender
      ({ s with
          transports := upsertA tid ⟨tid, peerId, false, false⟩ s.transports,
          peers := upsertA peerId { peer with transportIds := peer.transportIds ++ [tid] } s.peers,
          nextId := tid + 1 }, [], [.okTransport tid])

/-- `socket.on('connectWebRtcTransport')`: looks the transport up in the
global store and calls `transport.connect`.  The engine rejects a closed
transport and a second `connect` call. -/
def handleConnectTransport (s : ServerState) (tid : Nat) : HandlerOut :=
  match lookupA tid s.transports with
  | none => (s, [], [.err ("Transport " ++ toString tid ++ " not found")])
  | some t =>
      if t.closed then (s, [], [.err "Transport closed"])
      else if t.connected then (s, [], [.err "connect already called"])
      else ({ s with transports := upsertA tid { t with connected := true } s.transports },
            [], [.okSuccess])

/-- `socket.on('produce')`: only checks that `transports.get(transportId)`
exists; it never checks the transport's connection state nor that the
transport belongs to the requesting peer.  The engine rejects producing on
a closed transport; producing on an unconnected one succeeds.  On success
the producer is stored, `newProducer` is pushed to the room, the callback
gets the id, and an audio producer starts a recording entry in the peer's
room. -/
def handleProduce (s : ServerState) (peerId : String) (tid : Nat) (kind : String) : HandlerOut :=
  match lookupA peerId s.peers with
  | none => (s, [], [.err "peer not connected"])
  | some peer =>
      match lookupA tid s.transports with
      | none => (s, [], [.err ("Transport " ++ toString tid ++ " not found")])
      | some t =>
          if t.closed then (s, [], [.err "Transport closed"])
          else
            let pid := s.nextId
            let s' := { s with
              producers := upsertA pid ⟨pid, peerId, tid, kind, false⟩ s.producers,
              peers := upsertA peerId { peer with producerIds := peer.producerIds ++ [pid] } s.peers,
              nextId := pid + 1 }
            let s'' :=
              if kind = "audio" then
                match lookupA peer.roomId s'.rooms with
                | some room =>
                    let room' := { room with recordings :=
                      if pid ∈ room.recordings then room.recordings
                      else room.recordings ++ [pid] }
                    { s' with rooms := upsertA peer.roomId room' s'.rooms }
                | none => s'
              else s'
            (s'', [.newProducer peerId pid kind], [.okProduced pid])

/-- `router.canConsume({producerId, rtpCapabilities})`, modelled from the
engine: the producer must still be live in the (opus-only) router and the
receiver capabilities must include a matching opus audio codec. -/
def canConsume (producer : Producer) (caps : List Codec) : Bool :=
  !producer.closed && caps.any (fun c => c.mimeType = "audio/opus" && c.kind = "audio")

/-- `socket.on('consume')`: the destructuring reads only `producerId` and
`rtpCapabilities`; the `transportId` sent by the client is ignored.  The
consuming transport is the first entry of the requesting peer's transport
map, whatever its direction or connection state, and the consumer is
created with `paused: true`. -/
def handleConsume (s : ServerState) (peerId : String) (producerId : Nat)
    (caps : List Codec) (transportIdArg : Nat) : HandlerOut :=
  let _ := transportIdArg
  match lookupA peerId s.peers with
  | none => (s, [], [.err "peer not connected"])
  | some peer =>
      match lookupA producerId s.producers with
      | none => (s, [], [.err ("Producer " ++ toString producerId ++ " not found")])
      | some producer =>
          if !(canConsume producer caps) then
            (s, [], [.err ("Router cannot consume producer " ++ toString producerId ++
                           " with provided RTP capabilities")])
          else
            match peer.transportIds.head? with
            | none => (s, [], [.err "No transport available for consuming"])
            | some tid0 =>
                match lookupA tid0 s.transports with
                | none => (s, [], [.err "No transport available for consuming"])
                | some t =>
                    if t.closed then (s, [], [.err "Transport closed"])
                    else
                      let cid := s.nextId
                      ({ s with
                          consumers := upsertA cid ⟨cid, peerId, tid0, producerId, .paused⟩ s.consumers,
                          peers := upsertA peerId
                            { peer with consumerIds := peer.consumerIds ++ [cid] } s.peers,
                          nextId := cid + 1 },
                       [], [.okConsumed cid producerId producer.kind])

/-- `socket.on('resumeConsumer')`: looks the consumer up in the global
store; `consumer.resume()` fails on a closed consumer and otherwise makes
it active (idempotently). -/
def handleResumeConsumer (s : ServerState) (cid : Nat) : HandlerOut :=
  match lookupA cid s.consumers with
  | none => (s, [], [.err ("Consumer " ++ toString cid ++ " not found")])
  | some c =>
      match c.state with
      | .closed => (s, [], [.err "Consumer closed"])
      | _ => ({ s with consumers := upsertA cid { c with state := .active } s.consumers },
              [], [.okSuccess])

/-- `socket.on('stopRecording')`. -/
def handleStopRecording (s : ServerState) (peerId : String) (pid : Nat) : HandlerOut :=
  match lookupA peerId s.peers with
  | none => (s, [], [.err "peer not connected"])
  | some peer =>
      match lookupA peer.roomId s.rooms with
      | none => (s, [], [.err "Recording not found"])
      | some room =>
          if pid ∈ room.recordings then
            let room' := { room with recordings := room.recordings.filter (fun q => decide (q ≠ pid)) }
            ({ s with rooms := upsertA peer.roomId room' s.rooms }, [], [.okSuccess])
          else (s, [], [.err "Recording not found"])

/-- `socket.on('joinRoom')`: stores the user, pushes `userJoined` to the
others and the filtered user list back to the sender.  No callback. -/
def handleJoinRoom (s : ServerState) (userId username roomId : String) : ServerState × List Event :=
  let s' := { s with users := upsertA userId ⟨userId, username, false⟩ s.users }
  let roomUsers :=
    match lookupA roomId s'.rooms with
    | some room => (s'.users.map Prod.snd).filter (fun u => decide (u.id ∈ room.members))
    | none => []
  (s', [.userJoined userId, .usersList roomUsers])

/-- `socket.on('speaking')`: last-write-wins update plus fan-out. -/
def handleSpeaking (s : ServerState) (peerId : String) (sp : Bool) : ServerState × List Event :=
  let s' :=
    match lookupA peerId s.users with
    | some u => { s with users := upsertA peerId { u with isSpeaking := sp } s.users }
    | none => s
  (s', [.userSpeaking peerId sp])

/-- `socket.on('disconnect')`: closes every transport owned by the peer
(the engine cascades the close to the producers hosted on them and to all
consumers attached to those transports or consuming those producers),
emits `peerDisconnected` and `userLeft` once each, removes the peer and
its user entry, and deletes the room when its membership becomes empty.
The closed transport/producer/consumer entries are not removed from the
global stores. -/
def handleDisconnect (s : ServerState) (peerId : String) : ServerState × List Event :=
  match lookupA peerId s.peers with
  | none => (s, [])
  | some peer =>
      let closedT := peer.transportIds
      let closedP := (s.producers.filter (fun q => decide (q.2.transportId ∈ closedT))).map Prod.fst
      let s' := { s with
        transports := mapValsA (fun _ t =>
          if t.id ∈ closedT then { t with closed := true } else t) s.transports,
        producers := mapValsA (fun _ p =>
          if p.transportId ∈ closedT then { p with closed := true } else p) s.producers,
        consumers := mapValsA (fun _ c =>
          if c.transportId ∈ closedT ∨ c.producerId ∈ closedP then
            { c with state := .closed } else c) s.consumers,
        peers := eraseA peerId s.peers,
        users := eraseA peerId s.users }
      let s'' :=
        match lookupA peer.roomId s'.rooms with
        | none => s'
        | some room =>
            let members' := room.members.filter (fun m => decide (m ≠ peerId))
            if members'.isEmpty then { s' with rooms := eraseA peer.roomId s'.rooms }
            else { s' with rooms := upsertA peer.roomId { room with members := members' } s'.rooms }
      (s'', [.peerDisconnected peerId, .userLeft peerId])

/-! ### Protocol dispatch and traces -/

inductive Op
  | connect (roomId peerId : String)
  | getCaps (peerId : String)
  | joinRoom (roomId userId username : String)
  | createTransport (peerId : String) (sender : Bool)
  | connectTransport (transportId : Nat)
  | produce (peerId : String) (transportId : Nat) (kind : String)
  | consume (peerId : String) (producerId : Nat) (caps : List Codec) (transportId : Nat)
  | resumeConsumer (consumerId : Nat)
  | stopRecording (peerId : String) (producerId : Nat)
  | speaking (peerId : String) (sp : Bool)
  | disconnect (peerId : String)
deriving DecidableEq, Repr

def applyOp (s : ServerState) (op : Op) : HandlerOut :=
  match op with
  | .connect r p => (handleConnect s r p, [], [])
  | .getCaps p => handleGetCaps s p
  | .joinRoom r u n =>
      let out := handleJoinRoom s u n r
      (out.1, out.2, [])
  | .createTransport p sd => handleCreateTransport s p sd
  | .connectTransport t => handleConnectTransport s t
  | .produce p t k => handleProduce s p t k
  | .consume p pr caps t => handleConsume s p pr caps t
  | .resumeConsumer c => handleResumeConsumer s c
  | .stopRecording p pr => handleStopRecording s p pr
  | .speaking p sp =>
      let out := handleSpeaking s p sp
      (out.1, out.2, [])
  | .disconnect p =>
      let out := handleDisconnect s p
      (out.1, out.2, [])

def stepState (s : ServerState) (op : Op) : ServerState := (applyOp s op).1

def run (ops : List Op) : ServerState := ops.foldl stepState initialState

/-- Whether the inbound message carries a response callback. -/
def hasCallback : Op → Bool
  | .connect .. => false
  | .joinRoom .. => false
  | .speaking .. => false
  | .disconnect .. => false
  | _ => true

/-! ### Race model for two peers connecting concurrently (C9)

Node runs each connection handler's synchronous blocks atomically; the
handler suspends at `await createRoom(roomId)` between reading
`rooms.get(roomId)` and storing the new room.  A thread is at pc 0 before
its existence check, at pc 1 when suspended inside `createRoom`, and at
pc 2 when done.  A schedule entry picks which of the two threads runs its
next block. -/

def raceStep (roomId p1 p2 : String) (st : ServerState × Nat × Nat) (who : Bool) :
    ServerState × Nat × Nat :=
  let s := st.1
  let pc1 := st.2.1
  let pc2 := st.2.2
  if who then
    match pc2 with
    | 0 =>
        let out := checkBlock s roomId p2
        (out.1, pc1, if out.2 then 2 else 1)
    | 1 => (createBlock s roomId p2, pc1, 2)
    | _ => st
  else
    match pc1 with
    | 0 =>
        let out := checkBlock s roomId p1
        (out.1, if out.2 then 2 else 1, pc2)
    | 1 => (createBlock s roomId p1, 2, pc2)
    | _ => st

def raceRun (roomId p1 p2 : String) (sched : List Bool) : ServerState × Nat × Nat :=
  sched.foldl (raceStep roomId p1 p2) (initialState, 0, 0)

/-! ### Client: speaking-state tracker (`setupAudioLevelDetection`)

Each poll computes a decibel level and compares it strictly against the
threshold; a `speaking` protocol event is emitted only when the boolean
flips.  The tracker is modelled on the sequence of sampled decibel
levels. -/

/-- `speakingThreshold = -50` in `MediasoupClient`. -/
def speakingThreshold : Int := -50

/-- `const isSpeaking = decibels > this.speakingThreshold`. -/
def isSpeakingAt (threshold level : Int) : Bool := threshold < level

/-- One 100ms poll: new `speaking` flag and the events emitted. -/
def speakStep (threshold : Int) (speaking : Bool) (level : Int) : Bool × List Bool :=
  let isSp := isSpeakingAt threshold level
  if isSp ≠ speaking then (isSp, [isSp]) else (speaking, [])

/-- The `speaking` events emitted while consuming a level sequence. -/
def speakRun (threshold : Int) : Bool → List Int → List Bool
  | _, [] => []
  | sp, l :: ls =>
      let out := speakStep threshold sp l
      out.2 ++ speakRun threshold out.1 ls

/-! ### Client: capability fetch (`loadRouterRtpCapabilities`)

One 20-second timer is armed before the first attempt.  Each attempt's
callback either returns capabilities, returns an `{error}` payload
(which clears the timer before deciding whether to retry), returns a
falsy value (retry without touching the timer), or never fires.  Retries
wait a fixed 1000ms; callbacks that do arrive are assumed to arrive
well before the 20s expiry, so the timer matters exactly when an attempt
stays silent. -/

inductive FetchOutcome
  | ok
  | errResp
  | nullResp
  | silent
deriving DecidableEq, Repr

inductive FetchResult
  | resolved
  | rejectedError
  | rejectedRetries
  | rejectedTimeout
  | pending
deriving DecidableEq, Repr

def maxAttempts : Nat := 3

def retryDelayMs : Nat := 1000

def capabilitiesTimeoutMs : Nat := 20000

/-- `f n` is what happens to the callback of attempt number `n` (1-based).
Arguments: remaining fuel (`maxAttempts - made`), whether the 20s timer is
still armed, attempts already made.  Returns the fate of the promise and
the total number of attempts made. -/
def fetchLoop (f : Nat → FetchOutcome) : Nat → Bool → Nat → FetchResult × Nat
  | 0, _, made => (.pending, made)
  | fuel + 1, armed, made =>
      let attempts := made + 1
      match f attempts with
      | .ok => (.resolved, attempts)
      | .errResp =>
          if attempts < maxAttempts then fetchLoop f fuel false attempts
          else (.rejectedError, attempts)
      | .nullResp =>
          if attempts < maxAttempts then fetchLoop f fuel armed attempts
          else (.rejectedRetries, attempts)
      | .silent => if armed then (.rejectedTimeout, attempts) else (.pending, attempts)

def fetchRun (f : Nat → FetchOutcome) : FetchResult × Nat :=
  fetchLoop f maxAttempts true 0

/-- A server that answers the first attempt with an `{error}` payload and
then never invokes any later callback. -/
def hangF : Nat → FetchOutcome := fun n => if n = 1 then .errResp else .silent

/-! ### Concrete protocol traces used by counterexamples and witnesses

Ids allocated along a trace: the room router takes id 0, and each
transport/producer/consumer takes the next counter value. -/

/-- Peer `a` joins room `r` and opens a transport (id 1), never connecting it. -/
def traceUnconnected : List Op := [.connect "r" "a", .createTransport "a" true]

/-- As `traceUnconnected`, then peer `a` disconnects, emptying the room. -/
def traceEmptyRoom : List Op := [.connect "r" "a", .createTransport "a" true, .disconnect "a"]

/-- Peer `a` produces (producer 2) on its unconnected transport 1. -/
def traceProduced : List Op :=
  [.connect "r" "a", .createTransport "a" true, .produce "a" 1 "audio"]

/-- As `traceProduced`, then peer `a` consumes its own producer 2,
creating consumer 3 in the paused state. -/
def tracePausedConsumer : List Op := traceProduced ++ [.consume "a" 2 mediaCodecs 0]

/-- Peers `a` and `b` in room `r`: `a` opens and connects transport 1 and
produces producer 2; `b` opens transport 3, consumes producer 2 as
consumer 4 and resumes it.  Consumer 4 is live when `a` disconnects. -/
def traceLiveConsumer : List Op :=
  [.connect "r" "a", .connect "r" "b", .createTransport "a" true,
   .connectTransport 1, .produce "a" 1 "audio", .createTransport "b" false,
   .consume "b" 2 mediaCodecs 3, .resumeConsumer 4]

/-- State of `traceLiveConsumer` after peer `a` disconnects. -/
def afterDisconnectA : ServerState := stepState (run traceLiveConsumer) (.disconnect "a")

/-- The interleaving in which both connection handlers pass the
`rooms.get` existence check before either stores its room. -/
def raceSchedule : List Bool := [false, true, false, true]

/-! ## Theorems -/

/-! ### Association-list facts -/

theorem lookupA_upsertA_self [DecidableEq κ] (k : κ) (v : α) (l : List (κ × α)) :
    lookupA k (upsertA k v l) = some v := by
  induction l with
  | nil => simp [lookupA, upsertA]
  | cons hd tl ih =>
      obtain ⟨k', v'⟩ := hd
      by_cases h : k' = k <;> simp [lookupA, upsertA, h, ih]

theorem lookupA_upsertA_ne [DecidableEq κ] {k k' : κ} (v : α) (l : List (κ × α))
    (h : k' ≠ k) : lookupA k' (upsertA k v l) = lookupA k' l := by
  have hk : ¬ k = k' := fun hh => h hh.symm
  induction l with
  | nil => simp [lookupA, upsertA, hk]
  | cons hd tl ih =>
      obtain ⟨k₀, v₀⟩ := hd
      by_cases h₀ : k₀ = k
      · subst h₀
        simp [lookupA, upsertA, hk]
      · simp only [upsertA, if_neg h₀, lookupA]
        by_cases h₁ : k₀ = k' <;> simp [h₁, ih]

theorem lookupA_mapValsA [DecidableEq κ] (f : κ → α → α) (k : κ) (l : List (κ × α)) :
    lookupA k (mapValsA f l) = (lookupA k l).map (f k) := by
  induction l with
  | nil => simp [lookupA, mapValsA]
  | cons hd tl ih =>
      obtain ⟨k', v'⟩ := hd
      by_cases h : k' = k
      · subst h
        simp [lookupA, mapValsA]
      · simp only [mapValsA, List.map] at ih ⊢
        simp [lookupA, h, ih]

theorem lookupA_eraseA_self [DecidableEq κ] (k : κ) (l : List (κ × α)) :
    lookupA k (eraseA k l) = none := by
  induction l with
  | nil => simp [lookupA, eraseA]
  | cons hd tl ih =>
      obtain ⟨k', v'⟩ := hd
      by_cases h : k' = k <;> simp [lookupA, eraseA, h] <;> simpa [eraseA] using ih

theorem lookupA_mem [DecidableEq κ] {k : κ} {v : α} {l : List (κ × α)}
    (h : lookupA k l = some v) : (k, v) ∈ l := by
  induction l with
  | nil => simp [lookupA] at h
  | cons hd tl ih =>
      obtain ⟨k', v'⟩ := hd
      by_cases h₀ : k' = k
      · subst h₀
        simp [lookupA] at h
        simp [h]
      · simp [lookupA, h₀] at h
        exact List.mem_cons_of_mem _ (ih h)

/-! ### C7 and C10: speaking-state tracker -/

/-- Claim C7: feeding the tracker the decibel sequence
`[-60, -60, -40, -40, -60]` against threshold `-50`, starting from the
not-speaking state, emits exactly the two events `speaking=true` then
`speaking=false`, not one per sample. -/
theorem speaking_edge_triggered_events :
    speakRun speakingThreshold false [-60, -60, -40, -40, -60] = [true, false] := by
  decide

/-- Claim C10: the comparison `decibels > speakingThreshold` is strict, so
a level exactly equal to the `-50` threshold is classified as not
speaking, and a signal holding constantly at the threshold never emits a
`speaking=true` event. -/
theorem threshold_level_never_speaking :
    isSpeakingAt speakingThreshold speakingThreshold = false
    ∧ ∀ n : Nat, speakRun speakingThreshold false (List.replicate n speakingThreshold) = [] := by
  refine ⟨by decide, ?_⟩
  intro n
  induction n with
  | zero => rfl
  | succ n ih =>
      simp only [List.replicate, speakRun, speakStep, isSpeakingAt]
      norm_num
      simpa [speakingThreshold] using ih

/-! ### C1: produce validation -/

/-- Claim C1 counterexample: peer `a`'s transport 1 is registered but not
connected, yet the `produce` request succeeds with a producer id instead
of failing with `InvalidState`, and the producer is created on the
unconnected transport. -/
theorem produce_unconnected_ce :
    lookupA 1 (run traceUnconnected).transports = some ⟨1, "a", false, false⟩
    ∧ (applyOp (run traceUnconnected) (.produce "a" 1 "audio")).2.2 = [.okProduced 2]
    ∧ lookupA 2 (stepState (run traceUnconnected) (.produce "a" 1 "audio")).producers
        = some ⟨2, "a", 1, "audio", false⟩ := by
  decide

/-- Claim C1 (amended): a `produce` request fails only when `transportId`
is absent from the global transport registry (a not-found error) or the
transport is closed; no connected-state or send-direction/ownership check
is made, and on any live registered transport — connected or not, owned by
the requesting peer or not — a Producer is created and attached to it. -/
theorem produce_checks_only_registry (s : ServerState) (p : String) (tid : Nat)
    (kind : String) (peer : Peer) (hp : lookupA p s.peers = some peer) :
    (lookupA tid s.transports = none →
        (applyOp s (.produce p tid kind)).2.2
          = [.err ("Transport " ++ toString tid ++ " not found")])
    ∧ ∀ t, lookupA tid s.transports = some t → t.closed = false →
        (applyOp s (.produce p tid kind)).2.2 = [.okProduced s.nextId]
        ∧ lookupA s.nextId (stepState s (.produce p tid kind)).producers
            = some ⟨s.nextId, p, tid, kind, false⟩ := by
  constructor
  · intro hnone
    simp [applyOp, handleProduce, hp, hnone]
  · intro t ht hcl
    constructor
    · simp [applyOp, handleProduce, hp, ht, hcl]
    · simp only [stepState, applyOp, handleProduce, hp, ht, hcl, Bool.false_eq_true,
        if_false]
      split
      · split <;> simp [lookupA_upsertA_self]
      · simp [lookupA_upsertA_self]

/-- Witness for `produce_checks_only_registry`: producing on peer `a`'s
registered but unconnected transport 1 succeeds. -/
theorem produce_checks_only_registry_witness :
    lookupA "a" (run traceUnconnected).peers = some ⟨"a", "r", [1], [], []⟩
    ∧ lookupA 1 (run traceUnconnected).transports
        = some ⟨1, "a", false, false⟩
    ∧ ((applyOp (run traceUnconnected) (.produce "a" 1 "audio")).2.2
          = [.okProduced (run traceUnconnected).nextId]
        ∧ lookupA (run traceUnconnected).nextId
            (stepState (run traceUnconnected) (.produce "a" 1 "audio")).producers
          = some ⟨(run traceUnconnected).nextId, "a", 1, "audio", false⟩) :=
  ⟨by decide, by decide,
    (produce_checks_only_registry (run traceUnconnected) "a" 1 "audio"
      ⟨"a", "r", [1], [], []⟩ (by decide)).2
      ⟨1, "a", false, false⟩ (by decide) (by decide)⟩

/-! ### C2: room teardown -/

/-- Claim C2 counterexample: after the only peer of room `r` disconnects,
the room is deleted, but the transport handle it created is still
retained in the global transport registry (closed, not removed). -/
theorem empty_room_retains_handles_ce :
    lookupA "r" (run traceEmptyRoom).rooms = none
    ∧ lookupA 1 (run traceEmptyRoom).transports = some ⟨1, "a", false, true⟩ := by
  decide

/-- Claim C2 (amended): when the last member of a room disconnects, the
room entry is deleted from the room registry and the peer's transports are
closed, but every transport, producer and consumer handle previously
present in the global registries remains registered there (closed, never
removed). -/
theorem disconnect_releases_room_retains_media (s : ServerState) (p : String)
    (peer : Peer) (room : Room)
    (hp : lookupA p s.peers = some peer)
    (hr : lookupA peer.roomId s.rooms = some room)
    (hm : room.members.filter (fun m => decide (m ≠ p)) = []) :
    lookupA peer.roomId (handleDisconnect s p).1.rooms = none
    ∧ (∀ tid, (lookupA tid s.transports).isSome →
        (lookupA tid (handleDisconnect s p).1.transports).isSome)
    ∧ (∀ pid, (lookupA pid s.producers).isSome →
        (lookupA pid (handleDisconnect s p).1.producers).isSome)
    ∧ (∀ cid, (lookupA cid s.consumers).isSome →
        (lookupA cid (handleDisconnect s p).1.consumers).isSome) := by
  simp only [handleDisconnect, hp]
  refine ⟨?_, ?_, ?_, ?_⟩
  · simp only [hr, hm, List.isEmpty_nil, if_true]
    exact lookupA_eraseA_self _ _
  · intro tid h
    rcases hx : lookupA tid s.transports with _ | v
    · rw [hx] at h
      simp at h
    · simp only [hr]
      split <;> simp [lookupA_mapValsA, hx]
  · intro pid h
    rcases hx : lookupA pid s.producers with _ | v
    · rw [hx] at h
      simp at h
    · simp only [hr]
      split <;> simp [lookupA_mapValsA, hx]
  · intro cid h
    rcases hx : lookupA cid s.consumers with _ | v
    · rw [hx] at h
      simp at h
    · simp only [hr]
      split <;> simp [lookupA_mapValsA, hx]

/-- Witness for `disconnect_releases_room_retains_media`: peer `a` is the
only member of room `r` and owns transport 1; after its disconnect the
room is gone while the transport handle is still registered. -/
theorem disconnect_releases_room_retains_media_witness :
    lookupA "a" (run traceUnconnected).peers = some ⟨"a", "r", [1], [], []⟩
    ∧ (lookupA 1 (run traceUnconnected).transports).isSome
    ∧ lookupA "r" (handleDisconnect (run traceUnconnected) "a").1.rooms = none
    ∧ (lookupA 1 (handleDisconnect (run traceUnconnected) "a").1.transports).isSome := by
  have main := disconnect_releases_room_retains_media (run traceUnconnected) "a"
    ⟨"a", "r", [1], [], []⟩ ⟨"r", 0, ["a"], []⟩ (by decide) (by decide) (by decide)
  exact ⟨by decide, by decide, main.1, main.2.1 1 (by decide)⟩

/-! ### C3: consume validation -/

/-- Claim C3 counterexample: producer 2's owning transport 1 is not
connected (and is the consuming peer's only transport), yet `consume`
succeeds — with a `transportId` argument (999) that names no transport —
instead of failing with `InvalidState`. -/
theorem consume_unconnected_ce :
    lookupA 1 (run traceProduced).transports = some ⟨1, "a", false, false⟩
    ∧ lookupA 2 (run traceProduced).producers = some ⟨2, "a", 1, "audio", false⟩
    ∧ (applyOp (run traceProduced) (.consume "a" 2 mediaCodecs 999)).2.2
        = [.okConsumed 3 2 "audio"] := by
  decide

/-- Claim C3 (amended): `consume` succeeds exactly when the producer is
registered and live, the receiver capabilities pass the engine's
compatibility check, and the requesting peer's first transport exists and
is not closed; the resulting Consumer is created paused and attached to
that first transport, the `transportId` request field being ignored
entirely, and no connected-state check is made on any transport. -/
theorem consume_ignores_transport_argument (s : ServerState) (p : String)
    (prodId : Nat) (caps : List Codec) (tidA tidB : Nat)
    (peer : Peer) (producer : Producer) (tid0 : Nat) (t : Transport)
    (hp : lookupA p s.peers = some peer)
    (hprod : lookupA prodId s.producers = some producer)
    (hcaps : canConsume producer caps = true)
    (hhead : peer.transportIds.head? = some tid0)
    (ht : lookupA tid0 s.transports = some t)
    (hcl : t.closed = false) :
    applyOp s (.consume p prodId caps tidA) = applyOp s (.consume p prodId caps tidB)
    ∧ (applyOp s (.consume p prodId caps tidA)).2.2
        = [.okConsumed s.nextId prodId producer.kind]
    ∧ lookupA s.nextId (stepState s (.consume p prodId caps tidA)).consumers
        = some ⟨s.nextId, p, tid0, prodId, .paused⟩ := by
  refine ⟨rfl, ?_, ?_⟩
  · simp [applyOp, handleConsume, hp, hprod, hcaps, hhead, ht, hcl]
  · simp [stepState, applyOp, handleConsume, hp, hprod, hcaps, hhead, ht, hcl,
      lookupA_upsertA_self]

/-- Witness for `consume_ignores_transport_argument`: peer `a` consumes
its own producer 2 through its unconnected first transport 1. -/
theorem consume_ignores_transport_argument_witness :
    lookupA "a" (run traceProduced).peers = some ⟨"a", "r", [1], [2], []⟩
    ∧ (applyOp (run traceProduced) (.consume "a" 2 mediaCodecs 999)
        = applyOp (run traceProduced) (.consume "a" 2 mediaCodecs 0)
      ∧ (applyOp (run traceProduced) (.consume "a" 2 mediaCodecs 999)).2.2
          = [.okConsumed (run traceProduced).nextId 2 (Producer.kind ⟨2, "a", 1, "audio", false⟩)]
      ∧ lookupA (run traceProduced).nextId
          (stepState (run traceProduced) (.consume "a" 2 mediaCodecs 999)).consumers
          = some ⟨(run traceProduced).nextId, "a", 1, 2, .paused⟩) :=
  ⟨by decide,
    consume_ignores_transport_argument (run traceProduced) "a" 2 mediaCodecs 999 0
      ⟨"a", "r", [1], [2], []⟩ ⟨2, "a", 1, "audio", false⟩ 1 ⟨1, "a", false, false⟩
      (by decide) (by decide) (by decide) (by decide) (by decide) (by decide)⟩

/-! ### C9: concurrent room creation -/

/-- Claim C9 counterexample: two peers connecting concurrently with the
same unknown room id, interleaved so that both existence checks run
before either insert, create two router (capability provider) instances;
the registry keeps only the second room instance, containing only the
second peer. -/
theorem concurrent_connect_two_rooms_ce :
    (raceRun "r" "a" "b" raceSchedule).1.routersCreated = 2
    ∧ lookupA "r" (raceRun "r" "a" "b" raceSchedule).1.rooms = some ⟨"r", 1, ["b"], []⟩ := by
  decide

/-- Claim C9 (amended): room creation is idempotent only under serialized
connections: when a connection completes before the next begins, the
second connect for the same id creates no new router and joins the
existing room instance, sharing its capability provider. -/
theorem serialized_room_creation_idempotent (s : ServerState) (r p1 p2 : String)
    (h : lookupA r s.rooms = none) :
    (handleConnect s r p1).routersCreated = s.routersCreated + 1
    ∧ (handleConnect (handleConnect s r p1) r p2).routersCreated = s.routersCreated + 1
    ∧ lookupA r (handleConnect s r p1).rooms = some ⟨r, s.nextId, [p1], []⟩
    ∧ lookupA r (handleConnect (handleConnect s r p1) r p2).rooms
        = some ⟨r, s.nextId, addMember [p1] p2, []⟩ := by
  have h1 : handleConnect s r p1 = createBlock s r p1 := by
    simp [handleConnect, checkBlock, h]
  have hl : lookupA r (createBlock s r p1).rooms = some ⟨r, s.nextId, [p1], []⟩ := by
    simp [createBlock, lookupA_upsertA_self]
  have h2 : handleConnect (createBlock s r p1) r p2
      = (checkBlock (createBlock s r p1) r p2).1 := by
    simp [handleConnect, checkBlock, hl]
  refine ⟨by simp [h1, createBlock], ?_, by simp [h1, hl], ?_⟩
  · rw [h1, h2]
    simp [checkBlock, createBlock, lookupA_upsertA_self]
  · rw [h1, h2]
    simp [checkBlock, createBlock, lookupA_upsertA_self]

/-- Witness for `serialized_room_creation_idempotent`: `a` then `b`
serially connecting to the fresh room `r`. -/
theorem serialized_room_creation_idempotent_witness :
    lookupA "r" initialState.rooms = none
    ∧ ((handleConnect initialState "r" "a").routersCreated
          = initialState.routersCreated + 1
      ∧ (handleConnect (handleConnect initialState "r" "a") "r" "b").routersCreated
          = initialState.routersCreated + 1
      ∧ lookupA "r" (handleConnect initialState "r" "a").rooms
          = some ⟨"r", initialState.nextId, ["a"], []⟩
      ∧ lookupA "r" (handleConnect (handleConnect initialState "r" "a") "r" "b").rooms
          = some ⟨"r", initialState.nextId, addMember ["a"] "b", []⟩) :=
  ⟨by decide, serialized_room_creation_idempotent initialState "r" "a" "b" (by decide)⟩

/-! ### C8: bounded capability fetch -/

/-- Claim C8 counterexample: when attempt 1 is answered with an `{error}`
payload (which cancels the 20s timer) and attempt 2 never receives a
callback, the fetch makes 2 attempts and then neither resolves nor
rejects — it neither exhausts its retries nor times out. -/
theorem fetch_can_hang_ce : fetchRun hangF = (.pending, 2) := by
  decide

/-- Claim C8 (amended): the capability fetch makes at most 3 attempts
(with a fixed 1s backoff) and never retries beyond that bound, and it
rejects on retry exhaustion or on the 20-second timeout — except that the
timeout is cancelled by the first non-empty response, so the only way the
fetch can fail to settle is an attempt going silent after an earlier
attempt was answered with an error payload. -/
theorem fetch_attempts_bounded (f : Nat → FetchOutcome) :
    (fetchRun f).2 ≤ maxAttempts
    ∧ ((fetchRun f).1 = .pending → ∃ i j, i < j ∧ f i = .errResp ∧ f j = .silent) := by
  constructor
  · rcases e1 : f 1 <;> rcases e2 : f 2 <;> rcases e3 : f 3 <;>
      simp [fetchRun, fetchLoop, maxAttempts, e1, e2, e3]
  · intro hp
    rcases e1 : f 1 <;> rcases e2 : f 2 <;> rcases e3 : f 3 <;>
      simp [fetchRun, fetchLoop, maxAttempts, e1, e2, e3] at hp ⊢ <;>
      first
        | exact ⟨1, 2, by omega, e1, e2⟩
        | exact ⟨1, 3, by omega, e1, e3⟩
        | exact ⟨2, 3, by omega, e2, e3⟩

/-- Witness for `fetch_attempts_bounded`, at the hanging outcome
pattern. -/
theorem fetch_attempts_bounded_witness :
    (fetchRun hangF).2 ≤ maxAttempts
    ∧ ∃ i j, i < j ∧ hangF i = .errResp ∧ hangF j = .silent :=
  ⟨(fetch_attempts_bounded hangF).1, (fetch_attempts_bounded hangF).2 (by decide)⟩

/-! ### C4: consumer lifecycle -/

/-- Frame helper: when a step does not change the consumer entry under
`cid`, both parts of the consumer-lifecycle property hold vacuously. -/
theorem consumer_step_frame {s : ServerState} {op : Op} {cid : Nat} {c : Consumer}
    (he : lookupA cid (stepState s op).consumers = lookupA cid s.consumers)
    (hafter : lookupA cid (stepState s op).consumers = some c) :
    (lookupA cid s.consumers = none → c.state = ConsumerState.paused)
    ∧ ∀ c₀, lookupA cid s.consumers = some c₀ →
        c.state = ConsumerState.active → c₀.state ≠ ConsumerState.active →
        op = Op.resumeConsumer cid ∧ c₀.state = ConsumerState.paused := by
  rw [he] at hafter
  constructor
  · intro hn
    rw [hn] at hafter
    cases hafter
  · intro c₀ h0 hact hne
    have hcc : c₀ = c := by
      rw [h0] at hafter
      exact Option.some_inj.mp hafter
    exact absurd (by rw [hcc]; exact hact) hne

/-- Claim C4: every Consumer is created in the `paused` state, and the
only step that moves a consumer entry into the `active` state is an
explicit `resumeConsumer` for that id applied to a `paused` consumer — no
transition skips `paused`. -/
theorem consumer_created_paused_activated_by_resume
    (s : ServerState) (op : Op) (cid : Nat) (c : Consumer)
    (hafter : lookupA cid (stepState s op).consumers = some c) :
    (lookupA cid s.consumers = none → c.state = ConsumerState.paused)
    ∧ ∀ c₀, lookupA cid s.consumers = some c₀ →
        c.state = ConsumerState.active → c₀.state ≠ ConsumerState.active →
        op = Op.resumeConsumer cid ∧ c₀.state = ConsumerState.paused := by
  cases op with
  | connect r p =>
      have hmap : (stepState s (.connect r p)).consumers = s.consumers := by
        simp only [stepState, applyOp, handleConnect, checkBlock, createBlock] <;>
          (repeat' split) <;> rfl
      exact consumer_step_frame (by rw [hmap]) hafter
  | getCaps p =>
      have hmap : (stepState s (.getCaps p)).consumers = s.consumers := by
        simp only [stepState, applyOp, handleGetCaps] <;>
          (repeat' split) <;> rfl
      exact consumer_step_frame (by rw [hmap]) hafter
  | joinRoom r u n =>
      have hmap : (stepState s (.joinRoom r u n)).consumers = s.consumers := by
        simp only [stepState, applyOp, handleJoinRoom] <;>
          (repeat' split) <;> rfl
      exact consumer_step_frame (by rw [hmap]) hafter
  | createTransport p sd =>
      have hmap : (stepState s (.createTransport p sd)).consumers = s.consumers := by
        simp only [stepState, applyOp, handleCreateTransport] <;>
          (repeat' split) <;> rfl
      exact consumer_step_frame (by rw [hmap]) hafter
  | connectTransport t =>
      have hmap : (stepState s (.connectTransport t)).consumers = s.consumers := by
        simp only [stepState, applyOp, handleConnectTransport] <;>
          (repeat' split) <;> rfl
      exact consumer_step_frame (by rw [hmap]) hafter
  | produce p t k =>
      have hmap : (stepState s (.produce p t k)).consumers = s.consumers := by
        simp only [stepState, applyOp, handleProduce] <;>
          (repeat' split) <;> rfl
      exact consumer_step_frame (by rw [hmap]) hafter
  | stopRecording p pid =>
      have hmap : (stepState s (.stopRecording p pid)).consumers = s.consumers := by
        simp only [stepState, applyOp, handleStopRecording] <;>
          (repeat' split) <;> rfl
      exact consumer_step_frame (by rw [hmap]) hafter
  | speaking p sp =>
      have hmap : (stepState s (.speaking p sp)).consumers = s.consumers := by
        simp only [stepState, applyOp, handleSpeaking] <;>
          (repeat' split) <;> rfl
      exact consumer_step_frame (by rw [hmap]) hafter
  | consume p prodId caps tArg =>
      rcases hx : lookupA p s.peers with _ | peer
      · exact consumer_step_frame
          (by simp [stepState, applyOp, handleConsume, hx]) hafter
      · rcases hprod : lookupA prodId s.producers with _ | producer
        · exact consumer_step_frame
            (by simp [stepState, applyOp, handleConsume, hx, hprod]) hafter
        · rcases hcc : canConsume producer caps
          · exact consumer_step_frame
              (by simp [stepState, applyOp, handleConsume, hx, hprod, hcc]) hafter
          · rcases hh : peer.transportIds.head? with _ | tid0
            · exact consumer_step_frame
                (by simp [stepState, applyOp, handleConsume, hx, hprod, hcc, hh]) hafter
            · rcases htr : lookupA tid0 s.transports with _ | tt
              · exact consumer_step_frame
                  (by simp [stepState, applyOp, handleConsume, hx, hprod, hcc, hh, htr]) hafter
              · rcases hcl : tt.closed
                · have hmap : (stepState s (.consume p prodId caps tArg)).consumers
                      = upsertA s.nextId
                          ⟨s.nextId, p, tid0, prodId, ConsumerState.paused⟩ s.consumers := by
                    simp [stepState, applyOp, handleConsume, hx, hprod, hcc, hh, htr, hcl]
                  by_cases hkey : cid = s.nextId
                  · rw [hmap, hkey, lookupA_upsertA_self] at hafter
                    have hc : c = ⟨s.nextId, p, tid0, prodId, ConsumerState.paused⟩ :=
                      (Option.some_inj.mp hafter).symm
                    constructor
                    · intro _
                      rw [hc]
                    · intro c₀ h0 hact hne
                      rw [hc] at hact
                      simp at hact
                  · exact consumer_step_frame
                      (by rw [hmap]; exact lookupA_upsertA_ne _ _ hkey) hafter
                · exact consumer_step_frame
                    (by simp [stepState, applyOp, handleConsume, hx, hprod, hcc, hh, htr, hcl]) hafter
  | resumeConsumer cid' =>
      rcases hx : lookupA cid' s.consumers with _ | c₀'
      · exact consumer_step_frame
          (by simp [stepState, applyOp, handleResumeConsumer, hx]) hafter
      · cases hstate : c₀'.state with
        | closed =>
            exact consumer_step_frame
              (by simp [stepState, applyOp, handleResumeConsumer, hx, hstate]) hafter
        | paused =>
            have hmap : (stepState s (.resumeConsumer cid')).consumers
                = upsertA cid' { c₀' with state := ConsumerState.active } s.consumers := by
              simp [stepState, applyOp, handleResumeConsumer, hx, hstate]
            by_cases hkey : cid = cid'
            · subst hkey
              constructor
              · intro hn
                rw [hn] at hx
                cases hx
              · intro c₀ h0 hact hne
                have hc0 : c₀ = c₀' := Option.some_inj.mp (h0.symm.trans hx)
                exact ⟨rfl, by rw [hc0]; exact hstate⟩
            · exact consumer_step_frame
                (by rw [hmap]; exact lookupA_upsertA_ne _ _ hkey) hafter
        | active =>
            have hmap : (stepState s (.resumeConsumer cid')).consumers
                = upsertA cid' { c₀' with state := ConsumerState.active } s.consumers := by
              simp [stepState, applyOp, handleResumeConsumer, hx, hstate]
            by_cases hkey : cid = cid'
            · subst hkey
              constructor
              · intro hn
                rw [hn] at hx
                cases hx
              · intro c₀ h0 hact hne
                have hc0 : c₀ = c₀' := Option.some_inj.mp (h0.symm.trans hx)
                exact absurd (by rw [hc0]; exact hstate) hne
            · exact consumer_step_frame
                (by rw [hmap]; exact lookupA_upsertA_ne _ _ hkey) hafter
  | disconnect p =>
      rcases hx : lookupA p s.peers with _ | peer
      · exact consumer_step_frame
          (by simp [stepState, applyOp, handleDisconnect, hx]) hafter
      · obtain ⟨f, hf, hmap⟩ :
            ∃ f : Nat → Consumer → Consumer,
              (∀ k c', f k c' = c' ∨ f k c' = { c' with state := ConsumerState.closed })
              ∧ (stepState s (.disconnect p)).consumers = mapValsA f s.consumers := by
          refine ⟨fun _ c' =>
            if c'.transportId ∈ peer.transportIds ∨ c'.producerId ∈
                (s.producers.filter
                  (fun q => decide (q.2.transportId ∈ peer.transportIds))).map Prod.fst
            then { c' with state := ConsumerState.closed } else c', fun k c' => ?_, ?_⟩
          · dsimp only
            split
            · exact Or.inr rfl
            · exact Or.inl rfl
          · simp only [stepState, applyOp, handleDisconnect, hx] <;>
              (repeat' split) <;> rfl
        rw [hmap, lookupA_mapValsA] at hafter
        rcases hbefore : lookupA cid s.consumers with _ | c₀'
        · rw [hbefore] at hafter
          simp at hafter
        · rw [hbefore] at hafter
          simp only [Option.map_some'] at hafter
          have hc : f cid c₀' = c := Option.some_inj.mp hafter
          constructor
          · intro hn
            exact Option.noConfusion hn
          · intro c₀ h0 hact hne
            have hc0 : c₀ = c₀' := (Option.some_inj.mp h0).symm
            rcases hf cid c₀' with hid | hcl
            · rw [hid] at hc
              exact absurd (by rw [hc0, hc]; exact hact) hne
            · rw [hcl] at hc
              rw [← hc] at hact
              simp at hact

/-- Witness for `consumer_created_paused_activated_by_resume`: resuming
the paused consumer 3 makes it active, and the theorem certifies the
transition came from `paused` via `resumeConsumer`. -/
theorem consumer_created_paused_activated_by_resume_witness :
    lookupA 3 (stepState (run tracePausedConsumer) (.resumeConsumer 3)).consumers
        = some ⟨3, "a", 1, 2, ConsumerState.active⟩
    ∧ lookupA 3 (run tracePausedConsumer).consumers
        = some ⟨3, "a", 1, 2, ConsumerState.paused⟩
    ∧ ((Op.resumeConsumer 3) = Op.resumeConsumer 3
        ∧ (⟨3, "a", 1, 2, ConsumerState.paused⟩ : Consumer).state = ConsumerState.paused) :=
  ⟨by decide, by decide,
    (consumer_created_paused_activated_by_resume (run tracePausedConsumer)
        (.resumeConsumer 3) 3 ⟨3, "a", 1, 2, ConsumerState.active⟩ (by decide)).2
      ⟨3, "a", 1, 2, ConsumerState.paused⟩ (by decide) (by decide) (by decide)⟩

/-! ### C5: disconnect with a live remote consumer -/

/-- Claim C5 counterexample: after `a` disconnects, `b`'s live consumer 4
is closed and the room got exactly one `peerDisconnected` push, but
`resumeConsumer` on it does not fail with the not-found error — the handle
is still in the global registry, so the request fails with the engine's
closed-consumer error instead. -/
theorem disconnect_live_consumer_ce :
    (applyOp (run traceLiveConsumer) (.disconnect "a")).2.1
        = [.peerDisconnected "a", .userLeft "a"]
    ∧ lookupA 4 afterDisconnectA.consumers = some ⟨4, "b", 3, 2, ConsumerState.closed⟩
    ∧ (applyOp afterDisconnectA (.resumeConsumer 4)).2.2 = [.err "Consumer closed"]
    ∧ (applyOp afterDisconnectA (.resumeConsumer 4)).2.2
        ≠ [.err ("Consumer " ++ toString (4 : Nat) ++ " not found")] := by
  decide

/-- Claim C5 (amended): when peer `a` disconnects while another consumer
consumes a producer hosted on one of `a`'s transports, the room receives
exactly one `peerDisconnected` (and one `userLeft`) event and the consumer
is closed, but its handle stays in the global consumer registry, so a
subsequent `resumeConsumer` on its id finds it and fails with the engine's
closed-consumer error rather than `NotFound`. -/
theorem disconnect_closes_live_consumers (s : ServerState) (a : String)
    (peer : Peer) (cid : Nat) (c : Consumer) (pr : Producer)
    (hp : lookupA a s.peers = some peer)
    (hc : lookupA cid s.consumers = some c)
    (hpr : lookupA c.producerId s.producers = some pr)
    (hmem : pr.transportId ∈ peer.transportIds) :
    (handleDisconnect s a).2 = [.peerDisconnected a, .userLeft a]
    ∧ lookupA cid (handleDisconnect s a).1.consumers
        = some { c with state := ConsumerState.closed }
    ∧ (handleResumeConsumer (handleDisconnect s a).1 cid).2.2
        = [.err "Consumer closed"] := by
  have hmemP : c.producerId ∈ (s.producers.filter
      (fun q => decide (q.2.transportId ∈ peer.transportIds))).map Prod.fst := by
    refine List.mem_map.mpr ⟨(c.producerId, pr), ?_, rfl⟩
    exact List.mem_filter.mpr ⟨lookupA_mem hpr, by simpa using hmem⟩
  have hcons : lookupA cid (handleDisconnect s a).1.consumers
      = some { c with state := ConsumerState.closed } := by
    simp only [handleDisconnect, hp]
    (repeat' split) <;> simp [lookupA_mapValsA, hc, hmemP]
  refine ⟨?_, hcons, ?_⟩
  · simp [handleDisconnect, hp]
  · simp [handleResumeConsumer, hcons]

/-- Witness for `disconnect_closes_live_consumers`, at the two-peer trace
with `b`'s live consumer 4 on `a`'s producer 2. -/
theorem disconnect_closes_live_consumers_witness :
    lookupA "a" (run traceLiveConsumer).peers = some ⟨"a", "r", [1], [2], []⟩
    ∧ lookupA 4 (run traceLiveConsumer).consumers
        = some ⟨4, "b", 3, 2, ConsumerState.active⟩
    ∧ ((handleDisconnect (run traceLiveConsumer) "a").2
          = [.peerDisconnected "a", .userLeft "a"]
      ∧ lookupA 4 (handleDisconnect (run traceLiveConsumer) "a").1.consumers
          = some ⟨4, "b", 3, 2, ConsumerState.closed⟩
      ∧ (handleResumeConsumer (handleDisconnect (run traceLiveConsumer) "a").1 4).2.2
          = [.err "Consumer closed"]) :=
  ⟨by decide, by decide,
    disconnect_closes_live_consumers (run traceLiveConsumer) "a"
      ⟨"a", "r", [1], [2], []⟩ 4 ⟨4, "b", 3, 2, ConsumerState.active⟩
      ⟨2, "a", 1, "audio", false⟩ (by decide) (by decide) (by decide) (by decide)⟩

/-! ### C6: request/response discipline -/

/-- Claim C6: every inbound request that carries a response callback is
answered by exactly one callback invocation, and each invocation carries
either a result payload or an `{error}` payload (one constructor of the
`Resp` sum, never both); the handlers are total functions, so no handler
error escapes into the connection handler. -/
theorem every_request_answered_once (s : ServerState) (op : Op)
    (h : hasCallback op = true) :
    ((applyOp s op).2.2).length = 1 := by
  cases op <;>
    first
      | (simp only [applyOp, handleGetCaps, handleCreateTransport, handleConnectTransport,
            handleProduce, handleConsume, handleResumeConsumer, handleStopRecording] <;>
          (repeat' split) <;> rfl)
      | simp [hasCallback] at h

/-- Witness for `every_request_answered_once`, at a capability request on
the initial state. -/
theorem every_request_answered_once_witness :
    hasCallback (.getCaps "a") = true
    ∧ ((applyOp initialState (.getCaps "a")).2.2).length = 1 :=
  ⟨rfl, every_request_answered_once initialState (.getCaps "a") rfl⟩

end VoiceRoom
